import Mathlib

/-!
Verification of the NightCare demo healthcare backend (`backend.py`).

The development shallowly embeds the Python source: each HTTP handler
becomes a pure Lean function from the parsed request fields and the
database state to an HTTP status, a response body and the new state.
SQLite tables are lists of row records together with an AUTOINCREMENT
counter; `ORDER BY distance_km ASC` is embedded as a stable insertion
sort on the row list kept in insertion order.
-/

/-- ASCII case-map pairs, upper case paired with lower case.  Models the
ASCII fragment of the Python `str.lower` / `str.upper` library calls,
which is the fragment the backend exercises. -/
def casePairs : List (Char × Char) :=
  [('A', 'a'), ('B', 'b'), ('C', 'c'), ('D', 'd'), ('E', 'e'), ('F', 'f'),
   ('G', 'g'), ('H', 'h'), ('I', 'i'), ('J', 'j'), ('K', 'k'), ('L', 'l'),
   ('M', 'm'), ('N', 'n'), ('O', 'o'), ('P', 'p'), ('Q', 'q'), ('R', 'r'),
   ('S', 's'), ('T', 't'), ('U', 'u'), ('V', 'v'), ('W', 'w'), ('X', 'x'),
   ('Y', 'y'), ('Z', 'z')]

/-- Lower-case one character (ASCII model of Python `str.lower`). -/
def pyCharLower (c : Char) : Char :=
  ((casePairs.find? (fun p => p.1 == c)).map Prod.snd).getD c

/-- Upper-case one character (ASCII model of Python `str.upper`). -/
def pyCharUpper (c : Char) : Char :=
  ((casePairs.find? (fun p => p.2 == c)).map Prod.fst).getD c

/-- Python `s.lower()`. -/
def pyLower (s : String) : String := ⟨s.data.map pyCharLower⟩

/-- Python `s.upper()`. -/
def pyUpper (s : String) : String := ⟨s.data.map pyCharUpper⟩

/-- Drop leading and trailing whitespace from a character list. -/
def stripChars (l : List Char) : List Char :=
  ((l.dropWhile Char.isWhitespace).reverse.dropWhile Char.isWhitespace).reverse

/-- Python `s.strip()`. -/
def pyStrip (s : String) : String := ⟨stripChars s.data⟩

/-- Does `n` occur as a block at the very front of `h`?  Helper for the
Python substring test. -/
def subAt : List Char → List Char → Bool
  | [], _ => true
  | _ :: _, [] => false
  | a :: as, b :: bs => a == b && subAt as bs

/-- Does `n` occur as a contiguous block anywhere in `h`? -/
def hasSub (n : List Char) : List Char → Bool
  | [] => n.isEmpty
  | b :: bs => subAt n (b :: bs) || hasSub n bs

/-- Python `needle in hay` on strings (contiguous substring test). -/
def pyIn (needle hay : String) : Bool := hasSub needle.data hay.data

/-- Triage verdict returned by the symptom checker
(`possible_problem`, `severity`, `urgency`, `recommendation`). -/
structure Verdict where
  possible_problem : String
  severity : String
  urgency : String
  recommendation : String
deriving DecidableEq, Repr

/-- Verdict of the `chest` / `stroke` / `unconscious` rule. -/
def criticalVerdict : Verdict :=
  ⟨"Possible cardiac / neurological emergency", "critical", "emergency",
   "Immediate ambulance required. Do NOT drive yourself. Start CPR if not breathing."⟩

/-- Verdict of the `breath` / `difficulty breathing` / `asthma` rule. -/
def breathingVerdict : Verdict :=
  ⟨"Breathing difficulty / possible asthma or lung issue", "high", "urgent",
   "Use inhaler if prescribed & seek emergency department or ambulance if worsening."⟩

/-- Verdict of the `bleeding` / `blood` rule. -/
def bleedingVerdict : Verdict :=
  ⟨"Significant bleeding", "high", "urgent",
   "Apply firm pressure, keep limb elevated & visit nearest emergency within 30 minutes."⟩

/-- Verdict of the `fever` / `temperature` rule. -/
def feverVerdict : Verdict :=
  ⟨"Fever / infection-like symptoms", "moderate", "normal",
   "Hydrate, use paracetamol as advised & book online doctor if more than 48h or very high fever."⟩

/-- Default verdict when no keyword rule fires. -/
def mildVerdict : Verdict :=
  ⟨"General viral / mild condition", "mild", "normal",
   "Monitor at home, hydrate well & consult online if symptoms persist."⟩

/-- First keyword rule of `handle_symptom_checker`. -/
def rule1Hit (text : String) : Bool :=
  ["chest", "stroke", "unconscious"].any (fun k => pyIn k text)

/-- Second keyword rule of `handle_symptom_checker`. -/
def rule2Hit (text : String) : Bool :=
  pyIn "breath" text || pyIn "difficulty breathing" text || pyIn "asthma" text

/-- Third keyword rule of `handle_symptom_checker`. -/
def rule3Hit (text : String) : Bool :=
  pyIn "bleeding" text || pyIn "blood" text

/-- Fourth keyword rule of `handle_symptom_checker`. -/
def rule4Hit (text : String) : Bool :=
  pyIn "fever" text || pyIn "temperature" text

/-- The ordered first-match-wins cascade of `handle_symptom_checker`,
applied to the already lower-cased description text. -/
def classifyText (text : String) : Verdict :=
  if rule1Hit text then criticalVerdict
  else if rule2Hit text then breathingVerdict
  else if rule3Hit text then bleedingVerdict
  else if rule4Hit text then feverVerdict
  else mildVerdict

example : classifyText (pyLower "chest pain and fever") = criticalVerdict := by decide
example : classifyText (pyLower "I have a Fever") = feverVerdict := by decide
example : classifyText (pyLower "random text xyz") = mildVerdict := by decide

/-- Row of the `users` table (`created_at` is filled in by the storage
engine clock and carries no program logic, so it is not modelled). -/
structure UserRow where
  id : Nat
  phone : String
deriving DecidableEq, Repr

/-- Row of the `doctors` table. -/
structure DoctorRow where
  id : Nat
  name : String
  speciality : String
  rating : ℚ
  distance_km : ℚ
deriving DecidableEq, Repr

/-- Row of the `ambulance_bookings` table.  The schema declares the text
columns without `NOT NULL`, so they are modelled as `Option String`. -/
structure BookingRow where
  id : Nat
  user_phone : Option String
  pickup_location : Option String
  destination : Option String
  status : Option String
deriving DecidableEq, Repr

/-- Row of the `blood_banks` table. -/
structure BloodRow where
  id : Nat
  name : String
  blood_group : String
  units_available : Int
  distance_km : ℚ
deriving DecidableEq, Repr

/-- The SQLite database: each table is its row list in insertion order
together with the next AUTOINCREMENT id. -/
structure DB where
  users : List UserRow
  usersNextId : Nat
  doctors : List DoctorRow
  doctorsNextId : Nat
  bookings : List BookingRow
  bookingsNextId : Nat
  blood_banks : List BloodRow
  bloodNextId : Nat
deriving DecidableEq, Repr

/-- A freshly created database with all four tables empty. -/
def emptyDB : DB := ⟨[], 1, [], 1, [], 1, [], 1⟩

/-- The three seed doctors inserted by `init_db`, with ids starting at
`start`. -/
def seedDoctorRows (start : Nat) : List DoctorRow :=
  [⟨start, "Dr. Aditi Rao", "emergency", mkRat 49 10, mkRat 12 10⟩,
   ⟨start + 1, "Dr. Karan Mehta", "cardio", mkRat 48 10, mkRat 21 10⟩,
   ⟨start + 2, "Dr. Sana Ali", "pediatrics", mkRat 47 10, mkRat 9 10⟩]

/-- The five seed blood-bank rows inserted by `init_db`, with ids
starting at `start`. -/
def seedBloodRows (start : Nat) : List BloodRow :=
  [⟨start, "City Blood Center", "A+", 6, mkRat 21 10⟩,
   ⟨start + 1, "City Blood Center", "O+", 4, mkRat 21 10⟩,
   ⟨start + 2, "Metro Blood Bank", "A+", 3, mkRat 34 10⟩,
   ⟨start + 3, "Metro Blood Bank", "O+", 2, mkRat 34 10⟩,
   ⟨start + 4, "Govt. Blood Bank", "A+", 0, mkRat 41 10⟩]

/-- First seeding block of `init_db`: insert the three reference
doctors when `SELECT COUNT(*) FROM doctors` is zero. -/
def seedDoctorsIfEmpty (db : DB) : DB :=
  if db.doctors.length = 0 then
    { db with doctors := db.doctors ++ seedDoctorRows db.doctorsNextId,
              doctorsNextId := db.doctorsNextId + 3 }
  else db

/-- Second seeding block of `init_db`: insert the five reference
blood-bank rows when `SELECT COUNT(*) FROM blood_banks` is zero. -/
def seedBloodIfEmpty (db : DB) : DB :=
  if db.blood_banks.length = 0 then
    { db with blood_banks := db.blood_banks ++ seedBloodRows db.bloodNextId,
              bloodNextId := db.bloodNextId + 5 }
  else db

/-- `init_db`: seed the doctors table if it is empty, then seed the
blood-bank table if it is empty (table creation itself is schema setup
with no row effect). -/
def init_db (db : DB) : DB := seedBloodIfEmpty (seedDoctorsIfEmpty db)

/-- The JSON response bodies the backend can emit. -/
inductive Body where
  | empty : Body
  | errorMsg (msg : String) : Body
  | errorWithMessage (err msg : String) : Body
  | loginOk (user : UserRow) : Body
  | verdict (v : Verdict) : Body
  | doctors (rows : List DoctorRow) : Body
  | bookingOk (booking_id : Nat) (eta_minutes : Nat) (message : String) : Body
  | bloodOk (blood_group : String) (banks : List (String × Int × ℚ)) : Body
deriving DecidableEq, Repr

/-- The JSON request object restricted to the fields the handlers read
with `data.get`; an absent field is `none`. -/
structure Req where
  phone : Option String
  otp : Option String
  description : Option String
  pickup_location : Option String
  destination : Option String
  blood_group : Option String
deriving DecidableEq, Repr

/-- The empty JSON object. -/
def emptyReq : Req := ⟨none, none, none, none, none, none⟩

/-- `read_json_body`: `contentLength` is the parsed `Content-Length`
header (`int(...)` failure already yields 0 in the source), `parsed`
models the outcome of `json.loads` on the raw body (`none` stands for a
`JSONDecodeError`).  A zero length or a failed parse degrades to the
empty object. -/
def read_json_body (contentLength : Nat) (parsed : Option Req) : Req :=
  if contentLength = 0 then emptyReq
  else
    match parsed with
    | none => emptyReq
    | some r => r

/-- `INSERT OR IGNORE INTO users(phone) VALUES (?)`: insert a fresh row
unless a row with this phone exists (`phone` is `UNIQUE`). -/
def insertUserIfAbsent (db : DB) (p : String) : DB :=
  if db.users.any (fun u => u.phone == p) then db
  else { db with users := db.users ++ [⟨db.usersNextId, p⟩],
                 usersNextId := db.usersNextId + 1 }

/-- `handle_login`. -/
def handle_login (phone otp : Option String) (db : DB) : Nat × Body × DB :=
  if pyStrip (phone.getD "") = "" ∨ pyStrip (otp.getD "") = "" then
    (400, Body.errorMsg "phone and otp required", db)
  else if (pyStrip (otp.getD "")).length ≠ 6 then
    (400, Body.errorMsg "invalid otp, must be 6 digits", db)
  else
    match (insertUserIfAbsent db (pyStrip (phone.getD ""))).users.find?
        (fun u => u.phone == pyStrip (phone.getD "")) with
    | none => (500, Body.errorMsg "could not create user",
               insertUserIfAbsent db (pyStrip (phone.getD "")))
    | some u => (200, Body.loginOk u,
                 insertUserIfAbsent db (pyStrip (phone.getD "")))

/-- `handle_symptom_checker`. -/
def handle_symptom_checker (description : Option String) (db : DB) :
    Nat × Body × DB :=
  if pyStrip (pyLower (description.getD "")) = "" then
    (400, Body.errorWithMessage "description required"
      "please describe at least one symptom", db)
  else
    (200, Body.verdict (classifyText (pyLower (description.getD ""))), db)

/-- The `ORDER BY distance_km ASC` comparison on doctor rows. -/
def doctorLe (a b : DoctorRow) : Prop := a.distance_km ≤ b.distance_km

instance : DecidableRel doctorLe :=
  fun a b => inferInstanceAs (Decidable (a.distance_km ≤ b.distance_km))

instance : IsTotal DoctorRow doctorLe :=
  ⟨fun a b => le_total a.distance_km b.distance_km⟩

instance : IsTrans DoctorRow doctorLe :=
  ⟨fun _ _ _ h1 h2 => le_trans h1 h2⟩

/-- The `ORDER BY distance_km ASC` comparison on blood-bank rows. -/
def bloodLe (a b : BloodRow) : Prop := a.distance_km ≤ b.distance_km

instance : DecidableRel bloodLe :=
  fun a b => inferInstanceAs (Decidable (a.distance_km ≤ b.distance_km))

/-- `handle_doctors`. -/
def handle_doctors (db : DB) : Nat × Body × DB :=
  (200, Body.doctors (List.insertionSort doctorLe db.doctors), db)

/-- Confirmation message of `handle_ambulance_book`. -/
def ambulanceMsg : String := "Ambulance booked, driver will contact you shortly."

/-- `handle_ambulance_book`. -/
def handle_ambulance_book (phone pickup destination : Option String)
    (db : DB) : Nat × Body × DB :=
  if pyStrip (pickup.getD "") = "" then
    (400, Body.errorMsg "pickup_location required", db)
  else
    (200,
     Body.bookingOk db.bookingsNextId 5 ambulanceMsg,
     { db with
        bookings := db.bookings ++
          [⟨db.bookingsNextId, some (pyStrip (phone.getD "")),
            some (pyStrip (pickup.getD "")),
            some (pyStrip (destination.getD "")), some "BOOKED"⟩],
        bookingsNextId := db.bookingsNextId + 1 })

/-- `handle_blood_check`. -/
def handle_blood_check (blood_group : Option String) (db : DB) :
    Nat × Body × DB :=
  if pyUpper (pyStrip (blood_group.getD "")) = "" then
    (400, Body.errorMsg "blood_group required", db)
  else
    (200,
     Body.bloodOk (pyUpper (pyStrip (blood_group.getD "")))
       ((List.insertionSort bloodLe
          (db.blood_banks.filter
            (fun r => r.blood_group == pyUpper (pyStrip (blood_group.getD ""))))).map
         (fun r => (r.name, r.units_available, r.distance_km))),
     db)

/-- HTTP methods the handler class implements. -/
inductive Method where
  | GET : Method
  | POST : Method
  | OPTIONS : Method
deriving DecidableEq, Repr

/-- The router: `do_OPTIONS` answers 200 to every path (CORS preflight),
`do_POST` and `do_GET` compare the parsed path against the dispatch
table and fall back to a 404 error body. -/
def dispatch (m : Method) (path : String) (req : Req) (db : DB) :
    Nat × Body × DB :=
  match m with
  | Method.OPTIONS => (200, Body.empty, db)
  | Method.POST =>
    if path = "/api/login" then handle_login req.phone req.otp db
    else if path = "/api/symptom-checker" then
      handle_symptom_checker req.description db
    else if path = "/api/ambulance/book" then
      handle_ambulance_book req.phone req.pickup_location req.destination db
    else if path = "/api/blood/check" then handle_blood_check req.blood_group db
    else (404, Body.errorMsg "Not found", db)
  | Method.GET =>
    if path = "/api/doctors" then handle_doctors db
    else (404, Body.errorMsg "Not found", db)

/-- One client-visible operation, used to talk about arbitrary sequences
of requests between two bookings. -/
inductive Op where
  | login (phone otp : Option String) : Op
  | symptom (description : Option String) : Op
  | doctors : Op
  | ambulance (phone pickup destination : Option String) : Op
  | blood (group : Option String) : Op
  | initdb : Op

/-- The database after one operation. -/
def applyOp (db : DB) : Op → DB
  | Op.login p o => (handle_login p o db).2.2
  | Op.symptom d => (handle_symptom_checker d db).2.2
  | Op.doctors => (handle_doctors db).2.2
  | Op.ambulance p pk d => (handle_ambulance_book p pk d db).2.2
  | Op.blood g => (handle_blood_check g db).2.2
  | Op.initdb => init_db db

/-- The database after a sequence of operations. -/
def applyOps (db : DB) (ops : List Op) : DB := ops.foldl applyOp db

example :
    (handle_blood_check (some "a+") (init_db emptyDB)).2.1 =
      Body.bloodOk "A+"
        [("City Blood Center", 6, mkRat 21 10), ("Metro Blood Bank", 3, mkRat 34 10),
         ("Govt. Blood Bank", 0, mkRat 41 10)] := by decide
example : (dispatch Method.GET "/api/doctors" emptyReq (init_db emptyDB)).2.1 =
    Body.doctors
      [⟨3, "Dr. Sana Ali", "pediatrics", mkRat 47 10, mkRat 9 10⟩,
       ⟨1, "Dr. Aditi Rao", "emergency", mkRat 49 10, mkRat 12 10⟩,
       ⟨2, "Dr. Karan Mehta", "cardio", mkRat 48 10, mkRat 21 10⟩] := by decide

/-! ### Helper lemmas about the string primitives -/

theorem pyCharLower_isWhitespace (c : Char) :
    (pyCharLower c).isWhitespace = c.isWhitespace := by
  unfold pyCharLower
  cases h : casePairs.find? (fun p => p.1 == c) with
  | none => simp
  | some p =>
    have hmem : p ∈ casePairs := List.mem_of_find?_eq_some h
    have hp : p.1 = c := by
      have := List.find?_some h
      simpa using this
    have hboth : ∀ q ∈ casePairs,
        q.2.isWhitespace = false ∧ q.1.isWhitespace = false := by decide
    have h2 := hboth p hmem
    simp [hp ▸ h2.2, h2.1]

theorem stripChars_eq_nil {l : List Char} :
    stripChars l = [] ↔ l.all Char.isWhitespace = true := by
  unfold stripChars
  rw [List.reverse_eq_nil_iff, List.dropWhile_eq_nil_iff, List.all_eq_true]
  constructor
  · intro h x hx
    have hsplit : x ∈ List.takeWhile Char.isWhitespace l ∨
        x ∈ List.dropWhile Char.isWhitespace l := by
      rw [← List.mem_append, List.takeWhile_append_dropWhile]
      exact hx
    rcases hsplit with h1 | h1
    · exact List.mem_takeWhile_imp h1
    · exact h x (List.mem_reverse.mpr h1)
  · intro h x hx
    exact h x ((List.dropWhile_sublist Char.isWhitespace).subset
      (List.mem_reverse.mp hx))

theorem pyStrip_eq_empty {s : String} :
    pyStrip s = "" ↔ s.data.all Char.isWhitespace = true := by
  rw [pyStrip, String.ext_iff]
  exact stripChars_eq_nil

theorem pyStrip_pyLower_eq_empty (s : String) :
    pyStrip (pyLower s) = "" ↔ pyStrip s = "" := by
  rw [pyStrip_eq_empty, pyStrip_eq_empty]
  show (s.data.map pyCharLower).all Char.isWhitespace = true ↔ _
  rw [List.all_map, List.all_eq_true, List.all_eq_true]
  exact forall₂_congr (fun c _ => by
    simp [Function.comp, pyCharLower_isWhitespace])

theorem subAt_mem {n h : List Char} (hs : subAt n h = true) :
    ∀ c ∈ n, c ∈ h := by
  induction n generalizing h with
  | nil => intro c hc; cases hc
  | cons a as ih =>
    cases h with
    | nil => cases hs
    | cons b bs =>
      rw [subAt, Bool.and_eq_true] at hs
      intro c hc
      rcases List.mem_cons.mp hc with h1 | h1
      · exact List.mem_cons.mpr (Or.inl (h1.trans (beq_iff_eq.mp hs.1)))
      · exact List.mem_cons.mpr (Or.inr (ih hs.2 c h1))

theorem hasSub_mem {n h : List Char} (hs : hasSub n h = true) :
    ∀ c ∈ n, c ∈ h := by
  induction h with
  | nil =>
    intro c hc
    rw [hasSub, List.isEmpty_iff] at hs
    subst hs; cases hc
  | cons b bs ih =>
    rw [hasSub, Bool.or_eq_true] at hs
    intro c hc
    rcases hs with h1 | h1
    · exact subAt_mem h1 c hc
    · exact List.mem_cons.mpr (Or.inr (ih h1 c hc))

theorem pyIn_pyStrip_ne {k t : String}
    (hin : pyIn k t = true)
    (hk : k.data.any (fun c => !c.isWhitespace) = true) :
    pyStrip t ≠ "" := by
  intro hstrip
  rcases List.any_eq_true.mp hk with ⟨c, hc, hcw⟩
  have hct : c ∈ t.data := hasSub_mem hin c hc
  have := List.all_eq_true.mp (pyStrip_eq_empty.mp hstrip) c hct
  simp [this] at hcw

theorem rule_hit_pyStrip_ne {t : String}
    (h : rule1Hit t = true ∨ rule2Hit t = true ∨ rule3Hit t = true ∨
      rule4Hit t = true) :
    pyStrip t ≠ "" := by
  rcases h with h | h | h | h
  · rcases List.any_eq_true.mp h with ⟨k, hk, hkin⟩
    fin_cases hk
    · exact pyIn_pyStrip_ne hkin (by decide)
    · exact pyIn_pyStrip_ne hkin (by decide)
    · exact pyIn_pyStrip_ne hkin (by decide)
  · rw [rule2Hit, Bool.or_eq_true, Bool.or_eq_true] at h
    rcases h with (h | h) | h
    · exact pyIn_pyStrip_ne h (by decide)
    · exact pyIn_pyStrip_ne h (by decide)
    · exact pyIn_pyStrip_ne h (by decide)
  · rw [rule3Hit, Bool.or_eq_true] at h
    rcases h with h | h
    · exact pyIn_pyStrip_ne h (by decide)
    · exact pyIn_pyStrip_ne h (by decide)
  · rw [rule4Hit, Bool.or_eq_true] at h
    rcases h with h | h
    · exact pyIn_pyStrip_ne h (by decide)
    · exact pyIn_pyStrip_ne h (by decide)

theorem dropWhile_append_of_all {p : Char → Bool} {l m : List Char}
    (h : l.all p = true) : (l ++ m).dropWhile p = m.dropWhile p := by
  induction l with
  | nil => rfl
  | cons a as ih =>
    rw [List.all_cons, Bool.and_eq_true] at h
    rw [List.cons_append, List.dropWhile_cons, if_pos h.1]
    exact ih h.2

theorem dropWhile_of_all_neg {p : Char → Bool} {l : List Char}
    (h : l.all (fun c => !p c) = true) : l.dropWhile p = l := by
  cases l with
  | nil => rfl
  | cons a as =>
    rw [List.all_cons, Bool.and_eq_true] at h
    have ha : p a = false := by simpa using h.1
    rw [List.dropWhile_cons, if_neg (by simp [ha])]

/-- Stripping a string that is a non-whitespace core surrounded by
whitespace yields exactly the core. -/
theorem stripChars_sandwich {w1 w2 core : List Char}
    (h1 : w1.all Char.isWhitespace = true)
    (h2 : w2.all Char.isWhitespace = true)
    (hne : core ≠ [])
    (hcore : core.all (fun c => !c.isWhitespace) = true) :
    stripChars (w1 ++ core ++ w2) = core := by
  obtain ⟨c, cs, rfl⟩ : ∃ c cs, core = c :: cs := by
    cases core with
    | nil => exact absurd rfl hne
    | cons c cs => exact ⟨c, cs, rfl⟩
  have hc : c.isWhitespace = false := by
    rw [List.all_cons, Bool.and_eq_true] at hcore
    simpa using hcore.1
  unfold stripChars
  rw [List.append_assoc, dropWhile_append_of_all h1, List.cons_append,
    List.dropWhile_cons, if_neg (by simp [hc]), ← List.cons_append,
    List.reverse_append,
    dropWhile_append_of_all (by rw [List.all_reverse]; exact h2),
    dropWhile_of_all_neg (by rw [List.all_reverse]; exact hcore),
    List.reverse_reverse]

theorem find?_append_none {α : Type} {q : α → Bool} {l m : List α}
    (h : l.find? q = none) : (l ++ m).find? q = m.find? q := by
  induction l with
  | nil => rfl
  | cons a as ih =>
    have hall := List.find?_eq_none.mp h
    rw [List.cons_append,
      List.find?_cons_of_neg _ (hall a (List.mem_cons_self a as))]
    exact ih (List.find?_eq_none.mpr (fun x hx => hall x (List.mem_cons_of_mem a hx)))

/-- After `INSERT OR IGNORE`, the `SELECT ... WHERE phone = ?` always
finds a row carrying that phone. -/
theorem find_insertUserIfAbsent (db : DB) (p : String) :
    ∃ u, (insertUserIfAbsent db p).users.find? (fun u => u.phone == p) =
      some u ∧ u.phone = p := by
  unfold insertUserIfAbsent
  by_cases h : (db.users.any fun u => u.phone == p) = true
  · rw [if_pos h]
    have := List.find?_isSome.mpr (List.any_eq_true.mp h)
    rcases Option.isSome_iff_exists.mp this with ⟨u, hu⟩
    have hq := List.find?_some hu
    exact ⟨u, hu, by simpa using hq⟩
  · rw [if_neg h]
    refine ⟨(⟨db.usersNextId, p⟩ : UserRow), ?_, rfl⟩
    show (db.users ++ [(⟨db.usersNextId, p⟩ : UserRow)]).find?
        (fun u => u.phone == p) = some (⟨db.usersNextId, p⟩ : UserRow)
    have hnone : db.users.find? (fun u => u.phone == p) = none :=
      List.find?_eq_none.mpr
        (fun x hx hq => h (List.any_eq_true.mpr ⟨x, hx, hq⟩))
    rw [find?_append_none hnone, List.find?_cons_of_pos _ (by simp)]

/-- If the phone is already present, `INSERT OR IGNORE` leaves the
database unchanged. -/
theorem insertUserIfAbsent_of_mem {db : DB} {p : String} {u : UserRow}
    (hu : u ∈ db.users) (hp : u.phone = p) :
    insertUserIfAbsent db p = db := by
  have hany : (db.users.any fun u => u.phone == p) = true :=
    List.any_eq_true.mpr ⟨u, hu, beq_iff_eq.mpr hp⟩
  unfold insertUserIfAbsent
  rw [if_pos hany]

theorem insertUserIfAbsent_bookings (db : DB) (p : String) :
    (insertUserIfAbsent db p).bookings = db.bookings ∧
      (insertUserIfAbsent db p).bookingsNextId = db.bookingsNextId := by
  unfold insertUserIfAbsent
  split <;> exact ⟨rfl, rfl⟩

/-- No operation ever lowers the AUTOINCREMENT counter of the
`ambulance_bookings` table. -/
theorem bookingsNextId_mono_applyOp (db : DB) (op : Op) :
    db.bookingsNextId ≤ (applyOp db op).bookingsNextId := by
  cases op with
  | login p o =>
    show db.bookingsNextId ≤ (handle_login p o db).2.2.bookingsNextId
    unfold handle_login
    split
    · exact Nat.le_refl _
    · split
      · exact Nat.le_refl _
      · split
        · exact Nat.le_of_eq (insertUserIfAbsent_bookings db _).2.symm
        · exact Nat.le_of_eq (insertUserIfAbsent_bookings db _).2.symm
  | symptom d =>
    show db.bookingsNextId ≤ (handle_symptom_checker d db).2.2.bookingsNextId
    unfold handle_symptom_checker
    split <;> exact Nat.le_refl _
  | doctors => exact Nat.le_refl _
  | ambulance p pk d =>
    show db.bookingsNextId ≤ (handle_ambulance_book p pk d db).2.2.bookingsNextId
    unfold handle_ambulance_book
    split
    · exact Nat.le_refl _
    · exact Nat.le_succ _
  | blood g =>
    show db.bookingsNextId ≤ (handle_blood_check g db).2.2.bookingsNextId
    unfold handle_blood_check
    split <;> exact Nat.le_refl _
  | initdb =>
    show db.bookingsNextId ≤ (init_db db).bookingsNextId
    unfold init_db seedBloodIfEmpty seedDoctorsIfEmpty
    split <;> split <;> exact Nat.le_refl _

theorem bookingsNextId_mono_applyOps (ops : List Op) (db : DB) :
    db.bookingsNextId ≤ (applyOps db ops).bookingsNextId := by
  induction ops generalizing db with
  | nil => exact Nat.le_refl _
  | cons op rest ih =>
    exact Nat.le_trans (bookingsNextId_mono_applyOp db op) (ih (applyOp db op))

/-- Inserting a row whose distance equals `d` into a list puts it in
front of all other rows of distance `d` that are already there. -/
theorem filter_orderedInsert_pos (d : ℚ) (a : DoctorRow) (l : List DoctorRow)
    (ha : a.distance_km = d) :
    (List.orderedInsert doctorLe a l).filter (fun r => r.distance_km == d) =
      a :: l.filter (fun r => r.distance_km == d) := by
  induction l with
  | nil => simp [List.orderedInsert_nil, List.filter_cons, ha]
  | cons b bs ih =>
    rw [List.orderedInsert]
    by_cases h : doctorLe a b
    · rw [if_pos h]
      simp [List.filter_cons, ha]
    · rw [if_neg h]
      have hb : b.distance_km ≠ d := by
        intro hbd
        exact h (show doctorLe a b from le_of_eq (ha.trans hbd.symm))
      simp only [List.filter_cons, ih]
      simp [hb, ha]

theorem filter_orderedInsert_neg (d : ℚ) (a : DoctorRow) (l : List DoctorRow)
    (ha : a.distance_km ≠ d) :
    (List.orderedInsert doctorLe a l).filter (fun r => r.distance_km == d) =
      l.filter (fun r => r.distance_km == d) := by
  induction l with
  | nil => simp [List.orderedInsert_nil, List.filter_cons, ha]
  | cons b bs ih =>
    rw [List.orderedInsert]
    by_cases h : doctorLe a b
    · rw [if_pos h]
      simp [List.filter_cons, ha]
    · rw [if_neg h]
      simp only [List.filter_cons, ih]

/-- Stability of the embedded `ORDER BY`: rows of any fixed distance
appear in the sorted output exactly in their insertion order. -/
theorem filter_insertionSort_doctor (d : ℚ) (l : List DoctorRow) :
    (List.insertionSort doctorLe l).filter (fun r => r.distance_km == d) =
      l.filter (fun r => r.distance_km == d) := by
  induction l with
  | nil => rfl
  | cons a as ih =>
    rw [List.insertionSort]
    by_cases h : a.distance_km = d
    · rw [filter_orderedInsert_pos d a _ h, ih]
      simp [List.filter_cons, h]
    · rw [filter_orderedInsert_neg d a _ h, ih]
      simp [List.filter_cons, h]

theorem seedDoctorsIfEmpty_doctors_ne (db : DB) :
    (seedDoctorsIfEmpty db).doctors ≠ [] := by
  unfold seedDoctorsIfEmpty
  split
  · next h =>
    rw [List.length_eq_zero] at h
    simp [h, seedDoctorRows]
  · next h =>
    intro hnil
    exact h (by rw [hnil]; rfl)

theorem seedBloodIfEmpty_doctors (db : DB) :
    (seedBloodIfEmpty db).doctors = db.doctors := by
  unfold seedBloodIfEmpty
  split <;> rfl

theorem seedBloodIfEmpty_blood_ne (db : DB) :
    (seedBloodIfEmpty db).blood_banks ≠ [] := by
  unfold seedBloodIfEmpty
  split
  · next h =>
    rw [List.length_eq_zero] at h
    simp [h, seedBloodRows]
  · next h =>
    intro hnil
    exact h (by rw [hnil]; rfl)

theorem seedBloodIfEmpty_of_nonempty {db : DB} (h : db.blood_banks ≠ []) :
    seedBloodIfEmpty db = db := by
  unfold seedBloodIfEmpty
  rw [if_neg (fun hlen => h (List.length_eq_zero.mp hlen))]

theorem seedDoctorsIfEmpty_of_nonempty {db : DB} (h : db.doctors ≠ []) :
    seedDoctorsIfEmpty db = db := by
  unfold seedDoctorsIfEmpty
  rw [if_neg (fun hlen => h (List.length_eq_zero.mp hlen))]

theorem init_db_idem (db : DB) : init_db (init_db db) = init_db db := by
  have hd : (seedBloodIfEmpty (seedDoctorsIfEmpty db)).doctors ≠ [] := by
    rw [seedBloodIfEmpty_doctors]
    exact seedDoctorsIfEmpty_doctors_ne db
  show seedBloodIfEmpty (seedDoctorsIfEmpty (seedBloodIfEmpty (seedDoctorsIfEmpty db))) = _
  rw [seedDoctorsIfEmpty_of_nonempty hd,
    seedBloodIfEmpty_of_nonempty (seedBloodIfEmpty_blood_ne _)]
  rfl

/-! ### Claims -/

/-- C1: the symptom checker evaluates its keyword rules as an
ordered first-match-wins cascade over the lower-cased description:
a rule-1 keyword (`chest` / `stroke` / `unconscious`) always yields the
critical/emergency verdict, rule 2 fires only when rule 1 missed, and so
on down to the mild/normal default; in particular
`classify("chest pain and fever")` yields severity `critical`. -/
theorem claim1_symptom_priority_cascade (d : String) (db : DB) :
    (rule1Hit (pyLower d) = true →
      handle_symptom_checker (some d) db =
        (200, Body.verdict criticalVerdict, db)) ∧
    (rule1Hit (pyLower d) = false → rule2Hit (pyLower d) = true →
      handle_symptom_checker (some d) db =
        (200, Body.verdict breathingVerdict, db)) ∧
    (rule1Hit (pyLower d) = false → rule2Hit (pyLower d) = false →
      rule3Hit (pyLower d) = true →
      handle_symptom_checker (some d) db =
        (200, Body.verdict bleedingVerdict, db)) ∧
    (rule1Hit (pyLower d) = false → rule2Hit (pyLower d) = false →
      rule3Hit (pyLower d) = false → rule4Hit (pyLower d) = true →
      handle_symptom_checker (some d) db =
        (200, Body.verdict feverVerdict, db)) ∧
    (rule1Hit (pyLower d) = false → rule2Hit (pyLower d) = false →
      rule3Hit (pyLower d) = false → rule4Hit (pyLower d) = false →
      pyStrip (pyLower d) ≠ "" →
      handle_symptom_checker (some d) db =
        (200, Body.verdict mildVerdict, db)) ∧
    handle_symptom_checker (some "chest pain and fever") db =
      (200, Body.verdict criticalVerdict, db) := by
  have key : pyStrip (pyLower d) ≠ "" →
      handle_symptom_checker (some d) db =
        (200, Body.verdict (classifyText (pyLower d)), db) := by
    intro h
    unfold handle_symptom_checker
    simp only [Option.getD_some]
    rw [if_neg h]
  refine ⟨?_, ?_, ?_, ?_, ?_, ?_⟩
  · intro h1
    rw [key (rule_hit_pyStrip_ne (Or.inl h1))]
    unfold classifyText
    rw [if_pos h1]
  · intro h1 h2
    rw [key (rule_hit_pyStrip_ne (Or.inr (Or.inl h2)))]
    unfold classifyText
    rw [if_neg (by simp [h1]), if_pos h2]
  · intro h1 h2 h3
    rw [key (rule_hit_pyStrip_ne (Or.inr (Or.inr (Or.inl h3))))]
    unfold classifyText
    rw [if_neg (by simp [h1]), if_neg (by simp [h2]), if_pos h3]
  · intro h1 h2 h3 h4
    rw [key (rule_hit_pyStrip_ne (Or.inr (Or.inr (Or.inr h4))))]
    unfold classifyText
    rw [if_neg (by simp [h1]), if_neg (by simp [h2]), if_neg (by simp [h3]),
      if_pos h4]
  · intro h1 h2 h3 h4 h5
    rw [key h5]
    unfold classifyText
    rw [if_neg (by simp [h1]), if_neg (by simp [h2]), if_neg (by simp [h3]),
      if_neg (by simp [h4])]
  · unfold handle_symptom_checker
    simp only [Option.getD_some]
    rw [if_neg (by decide)]
    have hv : classifyText (pyLower "chest pain and fever") = criticalVerdict := by
      decide
    rw [hv]

/-- Witness for C1 at the concrete input from the spec. -/
theorem claim1_symptom_priority_cascade_w :
    handle_symptom_checker (some "chest pain and fever") emptyDB =
      (200, Body.verdict criticalVerdict, emptyDB) :=
  (claim1_symptom_priority_cascade "chest pain and fever" emptyDB).1 (by decide)

/-- C2: a symptom-checker request whose description is absent,
empty, or whitespace-only fails validation with a 400 error body, and a
description that is non-empty after trimming yields a 200 response
carrying a verdict. -/
theorem claim2_symptom_validation (desc : Option String) (db : DB) :
    ((desc = none ∨ desc = some "" ∨
        (∃ s, desc = some s ∧ s.data.all Char.isWhitespace = true)) →
      handle_symptom_checker desc db =
        (400, Body.errorWithMessage "description required"
          "please describe at least one symptom", db)) ∧
    (∀ s, desc = some s → pyStrip s ≠ "" →
      (handle_symptom_checker desc db).1 = 200 ∧
      (handle_symptom_checker desc db).2.1 =
        Body.verdict (classifyText (pyLower s))) := by
  constructor
  · rintro (rfl | rfl | ⟨s, rfl, hws⟩)
    · rfl
    · rfl
    · unfold handle_symptom_checker
      simp only [Option.getD_some]
      rw [if_pos ((pyStrip_pyLower_eq_empty s).mpr (pyStrip_eq_empty.mpr hws))]
  · rintro s rfl hs
    unfold handle_symptom_checker
    simp only [Option.getD_some]
    rw [if_neg (fun hc => hs ((pyStrip_pyLower_eq_empty s).mp hc))]
    exact ⟨rfl, rfl⟩

/-- C4: logging in twice with the same phone and a valid otp yields
the same user both times, the second login leaves the users table
unchanged, so the row count after the second login equals the count
after the first. -/
theorem claim4_login_idempotent (db : DB) (phone otp : String)
    (hp : pyStrip phone ≠ "") (ho : (pyStrip otp).length = 6) :
    ∃ (u : UserRow) (db1 : DB),
      handle_login (some phone) (some otp) db = (200, Body.loginOk u, db1) ∧
      handle_login (some phone) (some otp) db1 = (200, Body.loginOk u, db1) ∧
      (handle_login (some phone) (some otp) db1).2.2.users.length =
        db1.users.length := by
  have ho2 : pyStrip otp ≠ "" := by
    intro h
    rw [h] at ho
    cases ho
  obtain ⟨u, hfind, hup⟩ := find_insertUserIfAbsent db (pyStrip phone)
  have hu : u ∈ (insertUserIfAbsent db (pyStrip phone)).users :=
    List.mem_of_find?_eq_some hfind
  refine ⟨u, insertUserIfAbsent db (pyStrip phone), ?_, ?_, ?_⟩
  · unfold handle_login
    simp only [Option.getD_some]
    rw [if_neg (by push_neg; exact ⟨hp, ho2⟩), if_neg (fun h => h ho), hfind]
  · unfold handle_login
    simp only [Option.getD_some]
    rw [if_neg (by push_neg; exact ⟨hp, ho2⟩), if_neg (fun h => h ho),
      insertUserIfAbsent_of_mem hu hup, hfind]
  · unfold handle_login
    simp only [Option.getD_some]
    rw [if_neg (by push_neg; exact ⟨hp, ho2⟩), if_neg (fun h => h ho),
      insertUserIfAbsent_of_mem hu hup, hfind]

/-- Witness for C4 at a concrete phone and otp on the fresh database. -/
theorem claim4_login_idempotent_w :
    ∃ (u : UserRow) (db1 : DB),
      handle_login (some "9876543210") (some "123456") emptyDB =
        (200, Body.loginOk u, db1) ∧
      handle_login (some "9876543210") (some "123456") db1 =
        (200, Body.loginOk u, db1) ∧
      (handle_login (some "9876543210") (some "123456") db1).2.2.users.length =
        db1.users.length :=
  claim4_login_idempotent emptyDB "9876543210" "123456" (by decide) (by decide)

/-- C9: the login handler strips whitespace from phone and otp
before validating: a whitespace-only phone or otp is rejected as a
missing field with 400, an otp of six non-whitespace characters
surrounded by whitespace is accepted, and the user record stores the
stripped phone. -/
theorem claim9_login_strips_whitespace (db : DB) (phone otp : String)
    (w1 w2 core : List Char) :
    ((phone.data.all Char.isWhitespace = true ∨
        otp.data.all Char.isWhitespace = true) →
      handle_login (some phone) (some otp) db =
        (400, Body.errorMsg "phone and otp required", db)) ∧
    (otp.data = w1 ++ core ++ w2 →
      w1.all Char.isWhitespace = true → w2.all Char.isWhitespace = true →
      core.length = 6 → core.all (fun c => !c.isWhitespace) = true →
      pyStrip phone ≠ "" →
      ∃ u : UserRow,
        (handle_login (some phone) (some otp) db).1 = 200 ∧
        (handle_login (some phone) (some otp) db).2.1 = Body.loginOk u ∧
        u.phone = pyStrip phone ∧
        u ∈ (handle_login (some phone) (some otp) db).2.2.users) := by
  constructor
  · intro hws
    unfold handle_login
    simp only [Option.getD_some]
    rw [if_pos (hws.imp (fun h => pyStrip_eq_empty.mpr h)
      (fun h => pyStrip_eq_empty.mpr h))]
  · intro hotp hw1 hw2 hlen hcore hp
    have hcne : core ≠ [] := by
      intro h
      rw [h] at hlen
      cases hlen
    have hstrip : pyStrip otp = ⟨core⟩ := by
      unfold pyStrip
      rw [hotp, stripChars_sandwich hw1 hw2 hcne hcore]
    have hlen6 : (pyStrip otp).length = 6 := by
      rw [hstrip]
      exact hlen
    have ho2 : pyStrip otp ≠ "" := by
      intro h
      rw [h] at hlen6
      cases hlen6
    obtain ⟨u, hfind, hup⟩ := find_insertUserIfAbsent db (pyStrip phone)
    have hu : u ∈ (insertUserIfAbsent db (pyStrip phone)).users :=
      List.mem_of_find?_eq_some hfind
    refine ⟨u, ?_⟩
    unfold handle_login
    simp only [Option.getD_some]
    rw [if_neg (by push_neg; exact ⟨hp, ho2⟩), if_neg (fun h => h hlen6), hfind]
    exact ⟨rfl, rfl, hup, hu⟩

/-- Witness for C9: a whitespace-only otp is a 400, and a six-character
otp padded with whitespace logs in and stores the stripped phone. -/
theorem claim9_login_strips_whitespace_w :
    handle_login (some "9876543210") (some "   ") emptyDB =
      (400, Body.errorMsg "phone and otp required", emptyDB) ∧
    ∃ u : UserRow,
      (handle_login (some " 98765 ") (some "  123456 ") emptyDB).1 = 200 ∧
      (handle_login (some " 98765 ") (some "  123456 ") emptyDB).2.1 =
        Body.loginOk u ∧
      u.phone = pyStrip " 98765 " ∧
      u ∈ (handle_login (some " 98765 ") (some "  123456 ") emptyDB).2.2.users :=
  ⟨(claim9_login_strips_whitespace emptyDB "9876543210" "   " [] [] []).1
      (Or.inr (by decide)),
   (claim9_login_strips_whitespace emptyDB " 98765 " "  123456 "
      [' ', ' '] [' '] "123456".data).2 (by decide) (by decide) (by decide)
      (by decide) (by decide) (by decide)⟩

/-- C5: a booking request with a missing, empty, or whitespace-only
pickup location is answered 400 and leaves the database unchanged; a
valid pickup yields a 200 response with `eta_minutes = 5`, and the
booking id of any later successful booking — after any sequence of
further operations — is strictly greater. -/
theorem claim5_ambulance_booking (db : DB) (ph1 d1 ph2 d2 : Option String)
    (p1 p2 : String) (pk : Option String) (ops : List Op) :
    ((pk = none ∨ (∃ s, pk = some s ∧ s.data.all Char.isWhitespace = true)) →
      handle_ambulance_book ph1 pk d1 db =
        (400, Body.errorMsg "pickup_location required", db)) ∧
    (pyStrip p1 ≠ "" →
      (handle_ambulance_book ph1 (some p1) d1 db).1 = 200 ∧
      (handle_ambulance_book ph1 (some p1) d1 db).2.1 =
        Body.bookingOk db.bookingsNextId 5 ambulanceMsg) ∧
    (pyStrip p1 ≠ "" → pyStrip p2 ≠ "" →
      ∃ i1 i2 : Nat,
        (handle_ambulance_book ph1 (some p1) d1 db).2.1 =
          Body.bookingOk i1 5 ambulanceMsg ∧
        (handle_ambulance_book ph2 (some p2) d2
            (applyOps (handle_ambulance_book ph1 (some p1) d1 db).2.2 ops)).2.1 =
          Body.bookingOk i2 5 ambulanceMsg ∧
        i1 < i2) := by
  refine ⟨?_, ?_, ?_⟩
  · rintro (rfl | ⟨s, rfl, hws⟩)
    · rfl
    · unfold handle_ambulance_book
      simp only [Option.getD_some]
      rw [if_pos (pyStrip_eq_empty.mpr hws)]
  · intro h1
    unfold handle_ambulance_book
    simp only [Option.getD_some]
    rw [if_neg h1]
    exact ⟨rfl, rfl⟩
  · intro h1 h2
    have hdb1 : (handle_ambulance_book ph1 (some p1) d1 db).2.2.bookingsNextId =
        db.bookingsNextId + 1 := by
      unfold handle_ambulance_book
      simp only [Option.getD_some]
      rw [if_neg h1]
    refine ⟨db.bookingsNextId,
      (applyOps (handle_ambulance_book ph1 (some p1) d1 db).2.2
        ops).bookingsNextId, ?_, ?_, ?_⟩
    · unfold handle_ambulance_book
      simp only [Option.getD_some]
      rw [if_neg h1]
    · generalize applyOps (handle_ambulance_book ph1 (some p1) d1 db).2.2 ops = dbm
      unfold handle_ambulance_book
      simp only [Option.getD_some]
      rw [if_neg h2]
    · have hmono :=
        bookingsNextId_mono_applyOps ops
          (handle_ambulance_book ph1 (some p1) d1 db).2.2
      rw [hdb1] at hmono
      exact Nat.lt_of_lt_of_le (Nat.lt_succ_self _) hmono

/-- Witness for C5: an empty pickup is a 400 no-op, and two concrete
back-to-back bookings get eta 5 with strictly increasing ids. -/
theorem claim5_ambulance_booking_w :
    handle_ambulance_book none (some "   ") none emptyDB =
      (400, Body.errorMsg "pickup_location required", emptyDB) ∧
    (handle_ambulance_book none (some "12 Main St") none emptyDB).1 = 200 ∧
    ∃ i1 i2 : Nat,
      (handle_ambulance_book none (some "12 Main St") none emptyDB).2.1 =
        Body.bookingOk i1 5 ambulanceMsg ∧
      (handle_ambulance_book none (some "Clinic Rd") none
          (applyOps (handle_ambulance_book none (some "12 Main St") none
            emptyDB).2.2 [])).2.1 =
        Body.bookingOk i2 5 ambulanceMsg ∧
      i1 < i2 :=
  ⟨(claim5_ambulance_booking emptyDB none none none none "12 Main St"
      "Clinic Rd" (some "   ") []).1 (Or.inr ⟨"   ", rfl, by decide⟩),
   ((claim5_ambulance_booking emptyDB none none none none "12 Main St"
      "Clinic Rd" (some "   ") []).2.1 (by decide)).1,
   (claim5_ambulance_booking emptyDB none none none none "12 Main St"
      "Clinic Rd" (some "   ") []).2.2 (by decide) (by decide)⟩

/-- C10: a successful booking appends exactly one row, whose status
is the string BOOKED and whose user phone and destination are non-NULL
strings; an omitted phone or destination is stored as the empty string,
not as NULL. -/
theorem claim10_booking_row_shape (db : DB) (phone dest : Option String)
    (s : String) (hs : pyStrip s ≠ "") :
    ∃ row : BookingRow,
      (handle_ambulance_book phone (some s) dest db).2.2.bookings =
        db.bookings ++ [row] ∧
      row.status = some "BOOKED" ∧
      row.user_phone = some (pyStrip (phone.getD "")) ∧
      row.destination = some (pyStrip (dest.getD "")) ∧
      (phone = none → row.user_phone = some "") ∧
      (dest = none → row.destination = some "") := by
  refine ⟨⟨db.bookingsNextId, some (pyStrip (phone.getD "")),
    some (pyStrip s), some (pyStrip (dest.getD "")), some "BOOKED"⟩,
    ?_, rfl, rfl, rfl, ?_, ?_⟩
  · unfold handle_ambulance_book
    simp only [Option.getD_some]
    rw [if_neg hs]
  · rintro rfl
    show some (pyStrip ((none : Option String).getD "")) = some ""
    decide
  · rintro rfl
    show some (pyStrip ((none : Option String).getD "")) = some ""
    decide

/-- Witness for C10 at a concrete booking with omitted phone. -/
theorem claim10_booking_row_shape_w :
    ∃ row : BookingRow,
      (handle_ambulance_book none (some " 12 Main St ") none
          emptyDB).2.2.bookings =
        emptyDB.bookings ++ [row] ∧
      row.status = some "BOOKED" ∧
      row.user_phone = some (pyStrip ((none : Option String).getD "")) ∧
      row.destination = some (pyStrip ((none : Option String).getD "")) ∧
      ((none : Option String) = none → row.user_phone = some "") ∧
      ((none : Option String) = none → row.destination = some "") :=
  claim10_booking_row_shape emptyDB none none " 12 Main St " (by decide)

/-- C7: the doctors listing returns exactly the rows of the doctors
table ordered by `distance_km` ascending with ties kept in insertion
order, and re-running initialization is a no-op, so repeated calls
return the same list without duplicated seed rows. -/
theorem claim7_doctors_sorted (db : DB) :
    (handle_doctors db).1 = 200 ∧
    (handle_doctors db).2.1 =
      Body.doctors (List.insertionSort doctorLe db.doctors) ∧
    List.Perm (List.insertionSort doctorLe db.doctors) db.doctors ∧
    (List.insertionSort doctorLe db.doctors).Sorted doctorLe ∧
    (∀ d : ℚ,
      (List.insertionSort doctorLe db.doctors).filter
          (fun r => r.distance_km == d) =
        db.doctors.filter (fun r => r.distance_km == d)) ∧
    init_db (init_db db) = init_db db ∧
    handle_doctors (init_db (init_db db)) = handle_doctors (init_db db) :=
  ⟨rfl, rfl, List.perm_insertionSort doctorLe db.doctors,
   List.sorted_insertionSort doctorLe db.doctors,
   fun d => filter_insertionSort_doctor d db.doctors,
   init_db_idem db, by rw [init_db_idem db]⟩

/-- C8: the blood check normalizes its input, so the queries `a+`
and `A+` give identical results on any database, and a blood group that
matches no rows is answered 200 with an empty bank list, not an error. -/
theorem claim8_blood_check (db : DB) (bg : Option String) :
    handle_blood_check (some "a+") db = handle_blood_check (some "A+") db ∧
    (pyUpper (pyStrip (bg.getD "")) ≠ "" →
      db.blood_banks.filter
          (fun r => r.blood_group == pyUpper (pyStrip (bg.getD ""))) = [] →
      handle_blood_check bg db =
        (200, Body.bloodOk (pyUpper (pyStrip (bg.getD ""))) [], db)) := by
  constructor
  · have h : pyUpper (pyStrip ((some "a+").getD "")) =
        pyUpper (pyStrip ((some "A+").getD "")) := by decide
    unfold handle_blood_check
    rw [h]
  · intro hne hfilter
    unfold handle_blood_check
    rw [if_neg hne, hfilter]
    rfl

/-- Witness for C8: the seeded database holds no `B+` rows, and the
query `b+` is answered 200 with an empty list. -/
theorem claim8_blood_check_w :
    handle_blood_check (some "b+") (init_db emptyDB) =
      (200, Body.bloodOk (pyUpper (pyStrip ((some "b+").getD ""))) [],
        init_db emptyDB) :=
  (claim8_blood_check (init_db emptyDB) (some "b+")).2 (by decide) (by decide)

/-- C6 counterexample: `(OPTIONS, "/api/unknown")` is none of the
five routed pairs, yet the server answers the CORS preflight with 200
and an empty body, not with the 404 error body. -/
theorem claim6_counterexample_options_preflight :
    Method.OPTIONS ≠ Method.POST ∧ Method.OPTIONS ≠ Method.GET ∧
    dispatch Method.OPTIONS "/api/unknown" emptyReq emptyDB =
      (200, Body.empty, emptyDB) ∧
    (dispatch Method.OPTIONS "/api/unknown" emptyReq emptyDB).1 ≠ 404 :=
  ⟨by decide, by decide, rfl, by decide⟩

/-- C6 amended: for the methods with routing tables — GET and
POST — any path outside the dispatch table is answered 404 with the
`Not found` error body. -/
theorem claim6_unmatched_get_post_404 (m : Method) (path : String)
    (req : Req) (db : DB) (hm : m = Method.POST ∨ m = Method.GET)
    (h1 : path ≠ "/api/login") (h2 : path ≠ "/api/symptom-checker")
    (h3 : path ≠ "/api/ambulance/book") (h4 : path ≠ "/api/blood/check")
    (h5 : path ≠ "/api/doctors") :
    dispatch m path req db = (404, Body.errorMsg "Not found", db) := by
  rcases hm with rfl | rfl
  · simp only [dispatch]
    rw [if_neg h1, if_neg h2, if_neg h3, if_neg h4]
  · simp only [dispatch]
    rw [if_neg h5]

/-- Witness for the amended C6 at a concrete unknown route. -/
theorem claim6_unmatched_get_post_404_w :
    dispatch Method.GET "/api/unknown" emptyReq emptyDB =
      (404, Body.errorMsg "Not found", emptyDB) :=
  claim6_unmatched_get_post_404 Method.GET "/api/unknown" emptyReq emptyDB
    (Or.inr rfl) (by decide) (by decide) (by decide) (by decide) (by decide)

/-- C3 counterexample: a login request whose phone and otp are both
present and non-blank is still answered 400 when the otp is not six
characters, so not every 400 arises from missing-field validation. -/
theorem claim3_counterexample_otp_length_400 :
    (dispatch Method.POST "/api/login"
        { emptyReq with phone := some "9876543210", otp := some "123" }
        emptyDB).1 = 400 ∧
    pyStrip ((some "9876543210").getD "") ≠ "" ∧
    pyStrip ((some "123").getD "") ≠ "" := by
  refine ⟨by decide, by decide, by decide⟩

/-- C3 amended: an empty or unparseable body degrades to the empty
JSON object and no parse failure reaches the caller; every 400 response
comes from request-field validation — a required field that is blank
after normalization, or a login otp whose stripped length is not 6. -/
theorem claim3_body_parse_and_400_sources :
    (∀ p : Option Req, read_json_body 0 p = emptyReq) ∧
    (∀ n : Nat, read_json_body n none = emptyReq) ∧
    (∀ (m : Method) (path : String) (req : Req) (db : DB),
      (dispatch m path req db).1 = 400 →
      m = Method.POST ∧
      ((path = "/api/login" ∧
          (pyStrip (req.phone.getD "") = "" ∨ pyStrip (req.otp.getD "") = "" ∨
            (pyStrip (req.otp.getD "")).length ≠ 6)) ∨
       (path = "/api/symptom-checker" ∧
          pyStrip (pyLower (req.description.getD "")) = "") ∨
       (path = "/api/ambulance/book" ∧
          pyStrip (req.pickup_location.getD "") = "") ∨
       (path = "/api/blood/check" ∧
          pyUpper (pyStrip (req.blood_group.getD "")) = ""))) := by
  refine ⟨fun p => rfl, fun n => ?_, ?_⟩
  · unfold read_json_body
    split
    · rfl
    · rfl
  · intro m path req db h
    cases m with
    | OPTIONS => simp [dispatch] at h
    | GET =>
      simp only [dispatch] at h
      split at h
      · simp [handle_doctors] at h
      · simp at h
    | POST =>
      simp only [dispatch] at h
      split at h
      · next hpath =>
        refine ⟨rfl, Or.inl ⟨hpath, ?_⟩⟩
        unfold handle_login at h
        split at h
        · next hcond =>
          rcases hcond with h1 | h1
          · exact Or.inl h1
          · exact Or.inr (Or.inl h1)
        · split at h
          · next hlen => exact Or.inr (Or.inr hlen)
          · split at h
            · simp at h
            · simp at h
      · split at h
        · next hpath =>
          refine ⟨rfl, Or.inr (Or.inl ⟨hpath, ?_⟩)⟩
          unfold handle_symptom_checker at h
          split at h
          · next hcond => exact hcond
          · simp at h
        · split at h
          · next hpath =>
            refine ⟨rfl, Or.inr (Or.inr (Or.inl ⟨hpath, ?_⟩))⟩
            unfold handle_ambulance_book at h
            split at h
            · next hcond => exact hcond
            · simp at h
          · split at h
            · next hpath =>
              refine ⟨rfl, Or.inr (Or.inr (Or.inr ⟨hpath, ?_⟩))⟩
              unfold handle_blood_check at h
              split at h
              · next hcond => exact hcond
              · simp at h
            · simp at h

/-- Witness for the amended C3: the concrete 400 of a login with no
fields is traced to missing-field validation. -/
theorem claim3_body_parse_and_400_sources_w :
    Method.POST = Method.POST ∧
    (("/api/login" = "/api/login" ∧
        (pyStrip (emptyReq.phone.getD "") = "" ∨
          pyStrip (emptyReq.otp.getD "") = "" ∨
          (pyStrip (emptyReq.otp.getD "")).length ≠ 6)) ∨
     ("/api/login" = "/api/symptom-checker" ∧
        pyStrip (pyLower (emptyReq.description.getD "")) = "") ∨
     ("/api/login" = "/api/ambulance/book" ∧
        pyStrip (emptyReq.pickup_location.getD "") = "") ∨
     ("/api/login" = "/api/blood/check" ∧
        pyUpper (pyStrip (emptyReq.blood_group.getD "")) = "")) :=
  claim3_body_parse_and_400_sources.2.2 Method.POST "/api/login" emptyReq
    emptyDB (by decide)

/-- Witness for C2: a whitespace-only description is rejected with 400
and a real description is answered 200 with a verdict. -/
theorem claim2_symptom_validation_w :
    handle_symptom_checker (some "   ") emptyDB =
      (400, Body.errorWithMessage "description required"
        "please describe at least one symptom", emptyDB) ∧
    (handle_symptom_checker (some "I have a fever") emptyDB).1 = 200 ∧
    (handle_symptom_checker (some "I have a fever") emptyDB).2.1 =
      Body.verdict (classifyText (pyLower "I have a fever")) :=
  ⟨(claim2_symptom_validation (some "   ") emptyDB).1
      (Or.inr (Or.inr ⟨"   ", rfl, by decide⟩)),
   (claim2_symptom_validation (some "I have a fever") emptyDB).2
      "I have a fever" rfl (by decide)⟩
